import Mathlib

/-! go-sentry-kubernetes: the termination classifier and alert emitter

A shallow embedding of `handleEvent` (sentry-kubernetes.go, lines 87-141) and of the
Kubernetes and Sentry record types it reads and writes, followed by theorems about the
events it captures.

Modelling conventions

* Go pointers that the handler only tests against `nil` and dereferences are `Option`s.
* `int32` values (exit code, restart count) are `Int`; the handler does no arithmetic on
  them, so no wrap-around can occur.
* A run-time panic (nil pointer dereference, index out of range) is an explicit `Fault`.
  `sentry.CaptureEvent` is the only observable effect: the outcome of a run is the list of
  events captured so far, in order, plus the fault that stopped the run, if any.
* The `fmt.Println` diagnostics (lines 94, 122, 123) write to standard output only and are
  not modelled.
-/

namespace SentryKubernetes

/-! ## Kubernetes API types (k8s.io/api/core/v1), restricted to the fields the handler reads -/

/-- The record `api.ContainerStateWaiting`. -/
structure ContainerStateWaiting where
  Reason : String
  Message : String
  deriving DecidableEq, Repr

/-- The record `api.ContainerStateRunning`; the start time is kept as a number. -/
structure ContainerStateRunning where
  StartedAt : Int
  deriving DecidableEq, Repr

/-- The record `api.ContainerStateTerminated`: the termination record. -/
structure ContainerStateTerminated where
  ExitCode : Int
  Reason : String
  Message : String
  deriving DecidableEq, Repr

/-- The record `api.ContainerState`: three pointers, each possibly nil. -/
structure ContainerState where
  Waiting : Option ContainerStateWaiting
  Running : Option ContainerStateRunning
  Terminated : Option ContainerStateTerminated
  deriving DecidableEq, Repr

/-- The record `api.ContainerStatus`. -/
structure ContainerStatus where
  Name : String
  LastTerminationState : ContainerState
  RestartCount : Int
  Image : String
  deriving DecidableEq, Repr

/-- The record `api.Container`, an entry of the pod specification. -/
structure Container where
  Name : String
  Image : String
  deriving DecidableEq, Repr

/-- The record `api.PodSpec`. -/
structure PodSpec where
  NodeName : String
  Containers : List Container
  deriving DecidableEq, Repr

/-- The record `api.PodStatus`. -/
structure PodStatus where
  ContainerStatuses : List ContainerStatus
  deriving DecidableEq, Repr

/-- The record `metav1.ObjectMeta`. -/
structure ObjectMeta where
  Name : String
  Namespace : String
  deriving DecidableEq, Repr

/-- The record `api.Pod`. In Go `pod.Name` is the promoted field `pod.ObjectMeta.Name`. -/
structure Pod where
  ObjectMeta : ObjectMeta
  Spec : PodSpec
  Status : PodStatus
  deriving DecidableEq, Repr

/-! ## Sentry types (github.com/getsentry/sentry-go) -/

/-- A value stored in `Event.Extra`, a Go `map[string]interface{}`: the handler stores
strings and one `int32`. -/
inductive ExtraValue where
  | str (s : String)
  | int32 (n : Int)
  deriving DecidableEq, Repr

/-- The map `Event.Extra` as an association list with distinct keys. -/
abbrev ExtraMap := List (String × ExtraValue)

/-- Go map assignment `m[k] = v`: replace the binding of `k`, or add one. -/
def ExtraMap.set : ExtraMap → String → ExtraValue → ExtraMap
  | [], k, v => [(k, v)]
  | (k0, v0) :: rest, k, v =>
    if k0 = k then (k, v) :: rest else (k0, v0) :: ExtraMap.set rest k v

/-- Go map lookup `m[k]`, `none` when the key is absent. -/
def ExtraMap.get : ExtraMap → String → Option ExtraValue
  | [], _ => none
  | (k0, v0) :: rest, k => if k0 = k then some v0 else ExtraMap.get rest k

/-- The string type `sentry.Level`. -/
abbrev Level := String

/-- The constant `sentry.LevelError`. -/
def LevelError : Level := "error"

/-- The record `sentry.Event`, restricted to the fields the handler writes. -/
structure Event where
  Message : String
  Release : String
  Platform : String
  Level : Level
  Extra : ExtraMap
  deriving DecidableEq, Repr

/-- The constructor `sentry.NewEvent()`: empty strings and an empty `Extra` map. -/
def NewEvent : Event :=
  { Message := "", Release := "", Platform := "", Level := "", Extra := [] }

/-! ## The handler -/

/-- A Go run-time panic raised inside `handleEvent`. -/
inductive Fault where
  | nilPointerDereference
  | indexOutOfRange
  deriving DecidableEq, Repr

/-- The comparison `state != (api.ContainerState{})` of line 92: Go compares the three
pointers with nil. -/
def ContainerState.nonEmpty (state : ContainerState) : Bool :=
  state.Waiting.isSome || state.Running.isSome || state.Terminated.isSome

/-- The formatting `fmt.Sprintf("%d", n)` of line 97: decimal digits, with a leading minus
sign for a negative number. -/
def sprintfD : Int → String
  | Int.ofNat n => Nat.repr n
  | Int.negSucc n => "-" ++ Nat.repr (n + 1)

/-- Lines 98 and 101-112: the composed message. The condition `Terminated != nil` of
line 101 holds here, the pointer having been dereferenced on line 96; the `if` of lines
104-106 has an empty body (its `break` is commented out) and so has no effect. -/
def composeMessage (terminated : ContainerStateTerminated) : String :=
  let exitCode := terminated.ExitCode
  let containerMessage := ""
  let containerMessage :=
    if exitCode ≠ 0 then terminated.Message else containerMessage
  let containerMessage :=
    if terminated.Reason ≠ "" then
      (if containerMessage ≠ "" then containerMessage ++ " - " else containerMessage)
        ++ terminated.Reason
    else containerMessage
  containerMessage

/-- Lines 113-116: the "Error" override on the pair (containerReason, containerMessage).
`fmt.Sprintf("Pod: %s %s %s", a, b, c)` is `"Pod: " ++ a ++ " " ++ b ++ " " ++ c`. -/
def overrideError (podName codeStr : String) (st : String × String) : String × String :=
  if st.2 = "Error" then
    (st.2, "Pod: " ++ podName ++ " " ++ "exited with code: " ++ " " ++ codeStr)
  else st

/-- Lines 117-120: the "OOMKilled" override on the pair (containerReason, containerMessage).
`fmt.Sprintf("Pod: %s %s", a, b)` is `"Pod: " ++ a ++ " " ++ b`. -/
def overrideOOMKilled (podName : String) (st : String × String) : String × String :=
  if st.2 = "OOMKilled" then (st.2, "Pod: " ++ podName ++ " " ++ "OOMKilled") else st

/-- Lines 99 and 113-120: containerReason starts empty and the two overrides run one after
the other. The result is the pair (containerReason, containerMessage). -/
def applyOverrides (podName codeStr containerMessage : String) : String × String :=
  let containerReason := ""
  overrideOOMKilled podName (overrideError podName codeStr (containerReason, containerMessage))

/-- Lines 125-137 with `pod.Spec.Containers[0]` already read as `first`: the event handed to
`sentry.CaptureEvent`. -/
def buildEvent (pod : Pod) (status : ContainerStatus) (first : Container)
    (codeStr containerReason containerMessage : String) : Event :=
  let evt := NewEvent
  let evt := { evt with Message := containerMessage }
  let evt := { evt with Release := status.Image }
  let evt := { evt with Platform := "kubernetes" }
  let evt := { evt with Level := LevelError }
  let evt := { evt with Extra := evt.Extra.set "name" (.str pod.ObjectMeta.Name) }
  let evt := { evt with Extra := evt.Extra.set "reason" (.str containerReason) }
  let evt := { evt with Extra := evt.Extra.set "nodeName" (.str pod.Spec.NodeName) }
  let evt := { evt with Extra := evt.Extra.set "exitCode" (.str codeStr) }
  let evt := { evt with Extra := evt.Extra.set "container" (.str first.Name) }
  let evt := { evt with Extra := evt.Extra.set "namespace" (.str pod.ObjectMeta.Namespace) }
  let evt := { evt with Extra := evt.Extra.set "restartCount" (.int32 status.RestartCount) }
  evt

/-- One iteration of the loop of lines 91-140: `.ok none` when the status is skipped,
`.ok (some evt)` when `evt` is captured, `.error f` when the iteration panics (before any
capture). -/
def handleStatus (pod : Pod) (status : ContainerStatus) : Except Fault (Option Event) :=
  if status.LastTerminationState.nonEmpty then
    -- line 96: `Terminated` is dereferenced without a nil test
    match status.LastTerminationState.Terminated with
    | none => .error .nilPointerDereference
    | some terminated =>
      let exitCode := terminated.ExitCode
      let codeStr := sprintfD exitCode
      let containerMessage := composeMessage terminated
      let (containerReason, containerMessage) :=
        applyOverrides pod.ObjectMeta.Name codeStr containerMessage
      -- line 135: `pod.Spec.Containers[0]`
      match pod.Spec.Containers with
      | [] => .error .indexOutOfRange
      | first :: _ =>
        .ok (some (buildEvent pod status first codeStr containerReason containerMessage))
  else .ok none

/-- The observable outcome of a run: the events captured, in order, and the panic that
ended the run, if any. -/
structure Outcome where
  captured : List Event
  fault : Option Fault
  deriving DecidableEq, Repr

/-- The loop of lines 91-140 over the remaining statuses. -/
def handleLoop (pod : Pod) : List ContainerStatus → Outcome
  | [] => { captured := [], fault := none }
  | status :: rest =>
    match handleStatus pod status with
    | .error f => { captured := [], fault := some f }
    | .ok none => handleLoop pod rest
    | .ok (some evt) =>
      let out := handleLoop pod rest
      { captured := evt :: out.captured, fault := out.fault }

/-- The handler `handleEvent(_, obj)` with `obj` already asserted to be a pod (line 88). -/
def handleEvent (pod : Pod) : Outcome :=
  handleLoop pod pod.Status.ContainerStatuses

/-! ## The composition rule as the specification words it -/

/-- The composed message in the words of the specification: the message field when the exit
code is not zero, else empty; then that part alone when the reason is empty, the reason
alone when the part is empty, and otherwise the part, " - " and the reason. -/
def composedSpec (c : Int) (m r : String) : String :=
  let part := if c ≠ 0 then m else ""
  if r = "" then part else if part = "" then r else part ++ " - " ++ r

/-! ## Sample inputs -/

/-- A status with an empty last-termination state. -/
def quietStatus (name image : String) (restarts : Int) : ContainerStatus :=
  { Name := name, LastTerminationState := { Waiting := none, Running := none, Terminated := none },
    RestartCount := restarts, Image := image }

/-- A status whose last-termination state holds the given termination record. -/
def terminatedStatus (name image : String) (restarts : Int) (c : Int) (r m : String) :
    ContainerStatus :=
  { Name := name,
    LastTerminationState :=
      { Waiting := none, Running := none,
        Terminated := some { ExitCode := c, Reason := r, Message := m } },
    RestartCount := restarts, Image := image }

/-- A status whose last-termination state is not empty but has no termination record. -/
def waitingStatus (name image : String) (restarts : Int) : ContainerStatus :=
  { Name := name,
    LastTerminationState :=
      { Waiting := some { Reason := "ContainerCreating", Message := "" }, Running := none,
        Terminated := none },
    RestartCount := restarts, Image := image }

/-- A pod over the given specification containers and statuses. -/
def mkPod (name ns node : String) (containers : List Container)
    (statuses : List ContainerStatus) : Pod :=
  { ObjectMeta := { Name := name, Namespace := ns },
    Spec := { NodeName := node, Containers := containers },
    Status := { ContainerStatuses := statuses } }

/-- The pod of the end-to-end scenario. -/
def workerPod : Pod :=
  mkPod "worker-1" "batch" "node-a" [{ Name := "main", Image := "app:1.2" }]
    [terminatedStatus "main" "app:1.2" 3 137 "OOMKilled" ""]

/-- The event of the end-to-end scenario. -/
def workerEvent : Event :=
  { Message := "Pod: worker-1 OOMKilled", Release := "app:1.2", Platform := "kubernetes",
    Level := LevelError,
    Extra := [("name", .str "worker-1"), ("reason", .str "OOMKilled"),
              ("nodeName", .str "node-a"), ("exitCode", .str "137"),
              ("container", .str "main"), ("namespace", .str "batch"),
              ("restartCount", .int32 3)] }

/-- A one-container pod whose container last terminated cleanly. -/
def completedPod : Pod :=
  mkPod "job-1" "batch" "node-a" [{ Name := "main", Image := "job:1" }]
    [terminatedStatus "main" "job:1" 0 0 "Completed" ""]

/-- A three-container pod in which only the second container has terminated. -/
def threePod : Pod :=
  mkPod "web-0" "prod" "node-b"
    [{ Name := "proxy", Image := "proxy:2" }, { Name := "app", Image := "app:7" },
     { Name := "logger", Image := "log:1" }]
    [quietStatus "proxy" "proxy:2" 0,
     terminatedStatus "app" "app:7" 5 1 "ContainerCannotRun" "exec failed",
     quietStatus "logger" "log:1" 0]

/-- A two-container pod whose first status has a last-termination state with only `Waiting`
set and whose second container was killed for running out of memory. -/
def waitingPod : Pod :=
  mkPod "db-0" "prod" "node-c"
    [{ Name := "init", Image := "init:1" }, { Name := "main", Image := "db:3" }]
    [waitingStatus "init" "init:1" 0, terminatedStatus "main" "db:3" 2 137 "OOMKilled" ""]

/-- A one-container pod whose record has reason "Error", exit code 1 and no message. -/
def errorPod : Pod :=
  mkPod "web-0" "prod" "node-b" [{ Name := "app", Image := "app:7" }]
    [terminatedStatus "app" "app:7" 1 1 "Error" ""]

/-- A one-container pod whose record is exit code 137, reason "Error", message "Error". -/
def errorErrorPod : Pod :=
  mkPod "api-0" "prod" "node-b" [{ Name := "api", Image := "api:4" }]
    [terminatedStatus "api" "api:4" 1 137 "Error" "Error"]

/-! ## Shared lemmas -/

theorem pod_append_ne_error (x : String) : "Pod: " ++ x ≠ "Error" := by
  intro h
  have h2 := congrArg String.data h
  simp at h2

theorem pod_append_ne_oomkilled (x : String) : "Pod: " ++ x ≠ "OOMKilled" := by
  intro h
  have h2 := congrArg String.data h
  simp at h2

theorem joined_ne_error (m r : String) : m ++ " - " ++ r ≠ "Error" := by
  intro h
  have h2 := congrArg String.data h
  have h3 : ' ' ∈ (m ++ " - " ++ r).data := by simp
  rw [h2] at h3
  simp at h3

theorem joined_ne_oomkilled (m r : String) : m ++ " - " ++ r ≠ "OOMKilled" := by
  intro h
  have h2 := congrArg String.data h
  have h3 : ' ' ∈ (m ++ " - " ++ r).data := by simp
  rw [h2] at h3
  simp at h3

theorem composeMessage_eq_composedSpec (t : ContainerStateTerminated) :
    composeMessage t = composedSpec t.ExitCode t.Message t.Reason := by
  unfold composeMessage composedSpec
  by_cases hc : t.ExitCode = 0 <;> by_cases hr : t.Reason = "" <;>
    by_cases hm : t.Message = "" <;> simp [hc, hr, hm]

theorem applyOverrides_error (p c : String) :
    applyOverrides p c "Error" = ("Error", "Pod: " ++ p ++ " exited with code:  " ++ c) := by
  have h : "Pod: " ++ p ++ " " ++ "exited with code: " ++ " " ++ c
      = "Pod: " ++ p ++ " exited with code:  " ++ c := by
    simp only [String.append_assoc]; rfl
  have h2 : "Pod: " ++ p ++ " exited with code:  " ++ c ≠ "OOMKilled" := by
    rw [String.append_assoc, String.append_assoc]; exact pod_append_ne_oomkilled _
  simp [applyOverrides, overrideError, overrideOOMKilled, h, h2]

theorem applyOverrides_oomkilled (p c : String) :
    applyOverrides p c "OOMKilled" = ("OOMKilled", "Pod: " ++ p ++ " OOMKilled") := by
  have h : "Pod: " ++ p ++ " " ++ "OOMKilled" = "Pod: " ++ p ++ " OOMKilled" := by
    simp only [String.append_assoc]; rfl
  simp [applyOverrides, overrideError, overrideOOMKilled, h]

theorem applyOverrides_other (p c m : String) (h1 : m ≠ "Error") (h2 : m ≠ "OOMKilled") :
    applyOverrides p c m = ("", m) := by
  simp [applyOverrides, overrideError, overrideOOMKilled, h1, h2]

/-- A status with a termination record, in a pod with at least one specification
container, captures the event built from the record. -/
theorem handleStatus_terminated (pod : Pod) (status : ContainerStatus)
    (t : ContainerStateTerminated) (first : Container) (rest : List Container)
    (hT : status.LastTerminationState.Terminated = some t)
    (hC : pod.Spec.Containers = first :: rest) :
    handleStatus pod status = .ok (some (buildEvent pod status first (sprintfD t.ExitCode)
      (applyOverrides pod.ObjectMeta.Name (sprintfD t.ExitCode) (composeMessage t)).1
      (applyOverrides pod.ObjectMeta.Name (sprintfD t.ExitCode) (composeMessage t)).2)) := by
  simp [handleStatus, ContainerState.nonEmpty, hT, hC]

/-- Every captured event comes from a termination record and the first specification
container. -/
theorem handleStatus_ok_some (pod : Pod) (status : ContainerStatus) (evt : Event)
    (h : handleStatus pod status = .ok (some evt)) :
    ∃ t first rest, status.LastTerminationState.Terminated = some t ∧
      pod.Spec.Containers = first :: rest ∧
      evt = buildEvent pod status first (sprintfD t.ExitCode)
        (applyOverrides pod.ObjectMeta.Name (sprintfD t.ExitCode) (composeMessage t)).1
        (applyOverrides pod.ObjectMeta.Name (sprintfD t.ExitCode) (composeMessage t)).2 := by
  unfold handleStatus at h
  split at h
  · cases hT : status.LastTerminationState.Terminated with
    | none => simp [hT] at h
    | some t =>
      cases hC : pod.Spec.Containers with
      | nil => simp [hT, hC] at h
      | cons first rest =>
        simp [hT, hC] at h
        exact ⟨t, first, rest, rfl, rfl, h.symm⟩
  · simp at h

/-- A status without a termination record never captures an event: it is skipped when the
whole state is empty and panics otherwise. -/
theorem handleStatus_no_record (pod : Pod) (status : ContainerStatus)
    (h : status.LastTerminationState.Terminated = none) :
    handleStatus pod status =
      if status.LastTerminationState.nonEmpty then .error .nilPointerDereference
      else .ok none := by
  simp [handleStatus, h]

/-- The loop over a concatenation: the second part runs only when the first did not panic. -/
theorem handleLoop_append (pod : Pod) (xs ys : List ContainerStatus) :
    handleLoop pod (xs ++ ys) =
      if (handleLoop pod xs).fault = none then
        { captured := (handleLoop pod xs).captured ++ (handleLoop pod ys).captured,
          fault := (handleLoop pod ys).fault }
      else handleLoop pod xs := by
  induction xs with
  | nil => simp [handleLoop]
  | cons x xs ih =>
    simp only [List.cons_append, handleLoop]
    cases hx : handleStatus pod x with
    | error f => simp
    | ok o =>
      cases o with
      | none => simpa using ih
      | some evt =>
        simp only [ih]
        split <;> simp_all

/-- The handler reads the pod through its metadata and specification only. -/
theorem handleStatus_congr (p q : Pod) (hM : p.ObjectMeta = q.ObjectMeta)
    (hS : p.Spec = q.Spec) (status : ContainerStatus) :
    handleStatus p status = handleStatus q status := by
  simp [handleStatus, buildEvent, hM, hS]

theorem handleLoop_congr (p q : Pod) (hM : p.ObjectMeta = q.ObjectMeta)
    (hS : p.Spec = q.Spec) (xs : List ContainerStatus) :
    handleLoop p xs = handleLoop q xs := by
  induction xs with
  | nil => rfl
  | cons x xs ih => simp [handleLoop, handleStatus_congr p q hM hS x, ih]

/-- An event captured by one iteration appears in the output of the handler, between the
events of the earlier statuses and those of the later ones, when no earlier status
panicked. -/
theorem handleEvent_captures (pod : Pod) (pre post : List ContainerStatus)
    (status : ContainerStatus) (evt : Event)
    (hS : pod.Status.ContainerStatuses = pre ++ status :: post)
    (hP : (handleLoop pod pre).fault = none)
    (hE : handleStatus pod status = .ok (some evt)) :
    (handleEvent pod).captured =
      (handleLoop pod pre).captured ++ evt :: (handleLoop pod post).captured := by
  simp [handleEvent, hS, handleLoop_append, hP, handleLoop, hE]

/-- The fields of the event built on lines 125-137. -/
theorem buildEvent_fields (pod : Pod) (status : ContainerStatus) (first : Container)
    (c r m : String) :
    (buildEvent pod status first c r m).Message = m ∧
    (buildEvent pod status first c r m).Release = status.Image ∧
    (buildEvent pod status first c r m).Platform = "kubernetes" ∧
    (buildEvent pod status first c r m).Level = LevelError ∧
    (buildEvent pod status first c r m).Extra.get "name" = some (.str pod.ObjectMeta.Name) ∧
    (buildEvent pod status first c r m).Extra.get "reason" = some (.str r) ∧
    (buildEvent pod status first c r m).Extra.get "nodeName" = some (.str pod.Spec.NodeName) ∧
    (buildEvent pod status first c r m).Extra.get "exitCode" = some (.str c) ∧
    (buildEvent pod status first c r m).Extra.get "container" = some (.str first.Name) ∧
    (buildEvent pod status first c r m).Extra.get "namespace"
      = some (.str pod.ObjectMeta.Namespace) ∧
    (buildEvent pod status first c r m).Extra.get "restartCount"
      = some (.int32 status.RestartCount) := by
  refine ⟨rfl, rfl, rfl, rfl, ?_, ?_, ?_, ?_, ?_, ?_, ?_⟩ <;>
    simp [buildEvent, NewEvent, ExtraMap.set, ExtraMap.get]

/-- The composed message is one of the two override tokens exactly in the two listed ways:
the reason is the token and the message part is empty, or the reason is empty and the
message of a non-zero exit is the token. -/
theorem composeMessage_eq_token (t : ContainerStateTerminated) (T : String)
    (hT : T = "Error" ∨ T = "OOMKilled") :
    composeMessage t = T ↔
      (t.Reason = T ∧ (t.ExitCode = 0 ∨ t.Message = "")) ∨
      (t.Reason = "" ∧ t.ExitCode ≠ 0 ∧ t.Message = T) := by
  have hne : T ≠ "" := by rcases hT with h | h <;> subst h <;> decide
  have hj : t.Message ++ " - " ++ t.Reason ≠ T := by
    rcases hT with h | h <;> subst h
    · exact joined_ne_error _ _
    · exact joined_ne_oomkilled _ _
  unfold composeMessage
  by_cases hc : t.ExitCode = 0 <;> by_cases hr : t.Reason = "" <;>
    by_cases hm : t.Message = "" <;> simp [hc, hr, hm, hne, hj, Ne.symm hne]

/-- In a pod with at least one specification container, a status with a termination record
makes its iteration capture an event. -/
theorem handleStatus_emits (pod : Pod) (status : ContainerStatus)
    (t : ContainerStateTerminated) (hT : status.LastTerminationState.Terminated = some t)
    (hC : pod.Spec.Containers ≠ []) :
    ∃ evt, handleStatus pod status = .ok (some evt) := by
  obtain ⟨first, rest, hC2⟩ := List.exists_cons_of_ne_nil hC
  exact ⟨_, handleStatus_terminated pod status t first rest hT hC2⟩

/-- The message and the extra "reason" of a captured event are the two results of the
overrides applied to the composed message. -/
theorem handleStatus_message_reason (pod : Pod) (status : ContainerStatus)
    (t : ContainerStateTerminated) (evt : Event)
    (hT : status.LastTerminationState.Terminated = some t)
    (hE : handleStatus pod status = .ok (some evt)) :
    evt.Message
      = (applyOverrides pod.ObjectMeta.Name (sprintfD t.ExitCode) (composeMessage t)).2 ∧
    evt.Extra.get "reason" = some (.str
      (applyOverrides pod.ObjectMeta.Name (sprintfD t.ExitCode) (composeMessage t)).1) := by
  obtain ⟨t2, first, rest, hT2, -, hev⟩ := handleStatus_ok_some pod status evt hE
  have ht : t2 = t := by rw [hT] at hT2; exact (Option.some.inj hT2).symm
  subst ht
  rw [hev]
  exact ⟨(buildEvent_fields _ _ _ _ _ _).1, (buildEvent_fields _ _ _ _ _ _).2.2.2.2.2.1⟩

/-- A run over statuses that each have either an empty last-termination state or a
termination record, in a pod whose specification lists a container, does not panic. -/
theorem handleLoop_no_fault (pod : Pod) (xs : List ContainerStatus)
    (hC : pod.Spec.Containers ≠ [])
    (hX : ∀ s ∈ xs, s.LastTerminationState.nonEmpty = true →
      s.LastTerminationState.Terminated ≠ none) :
    (handleLoop pod xs).fault = none := by
  induction xs with
  | nil => rfl
  | cons x xs ih =>
    have ih2 := ih (fun s hs => hX s (List.mem_cons_of_mem x hs))
    by_cases hn : x.LastTerminationState.nonEmpty = true
    · have hne := hX x (List.mem_cons_self x xs) hn
      obtain ⟨t, ht⟩ := Option.ne_none_iff_exists'.mp hne
      obtain ⟨evt, he⟩ := handleStatus_emits pod x t ht hC
      simp [handleLoop, he, ih2]
    · have he : handleStatus pod x = .ok none := by simp [handleStatus, hn]
      simp [handleLoop, he, ih2]

/-- The whole outcome of the handler when the iteration on one status captures an event and
no earlier status panicked: the events of the earlier statuses, the event, then the events
of the later statuses, with the fault of the later statuses, if any. -/
theorem handleEvent_reaches (pod : Pod) (pre post : List ContainerStatus)
    (status : ContainerStatus) (evt : Event)
    (hS : pod.Status.ContainerStatuses = pre ++ status :: post)
    (hP : (handleLoop pod pre).fault = none)
    (hE : handleStatus pod status = .ok (some evt)) :
    handleEvent pod =
      { captured := (handleLoop pod pre).captured ++ evt :: (handleLoop pod post).captured,
        fault := (handleLoop pod post).fault } := by
  simp [handleEvent, hS, handleLoop_append, hP, handleLoop, hE]

/-- Every captured event names the first container of the pod specification in its extra
"container", whatever the status that produced it (line 135). -/
theorem handleStatus_container_extra (pod : Pod) (status : ContainerStatus) (evt : Event)
    (hE : handleStatus pod status = .ok (some evt)) :
    ∃ first rest, pod.Spec.Containers = first :: rest ∧
      evt.Extra.get "container" = some (.str first.Name) := by
  obtain ⟨t, first, rest, -, hC, hev⟩ := handleStatus_ok_some pod status evt hE
  refine ⟨first, rest, hC, ?_⟩
  rw [hev]
  exact (buildEvent_fields _ _ _ _ _ _).2.2.2.2.2.2.2.2.1

/-- Two spaces are not one: the message formatted on line 115 differs from its single-spaced
reading for every pod name and every rendering of the exit code. -/
theorem two_spaces_ne_one (p c : String) :
    "Pod: " ++ p ++ " exited with code:  " ++ c ≠ "Pod: " ++ p ++ " exited with code: " ++ c := by
  intro h
  have h2 := congrArg (fun s => s.data.length) h
  simp at h2

/-- The "Error" override on every input: when the composed message is "Error", a captured
event has extra "reason" equal to "Error" and the message of line 115, with two spaces
before the exit code. -/
theorem handleStatus_error_override (pod : Pod) (status : ContainerStatus)
    (t : ContainerStateTerminated) (evt : Event)
    (hT : status.LastTerminationState.Terminated = some t)
    (hM : composeMessage t = "Error")
    (hE : handleStatus pod status = .ok (some evt)) :
    evt.Message
      = "Pod: " ++ pod.ObjectMeta.Name ++ " exited with code:  " ++ sprintfD t.ExitCode ∧
    evt.Message
      ≠ "Pod: " ++ pod.ObjectMeta.Name ++ " exited with code: " ++ sprintfD t.ExitCode ∧
    evt.Extra.get "reason" = some (.str "Error") := by
  have h := handleStatus_message_reason pod status t evt hT hE
  rw [hM, applyOverrides_error] at h
  refine ⟨h.1, ?_, h.2⟩
  rw [h.1]
  exact two_spaces_ne_one _ _

/-- The digit loop of `Nat.repr` yields the base-10 digits, most significant first. -/
theorem toDigitsCore_ten (fuel : Nat) : ∀ (n : Nat) (acc : List Char), 0 < n → n < fuel →
    Nat.toDigitsCore 10 fuel n acc = (Nat.digits 10 n).reverse.map Nat.digitChar ++ acc := by
  induction fuel with
  | zero => intro n acc _ h; omega
  | succ fuel ih =>
    intro n acc hpos hlt
    have hd : Nat.digits 10 n = (n % 10) :: Nat.digits 10 (n / 10) :=
      Nat.digits_def' (by decide) hpos
    unfold Nat.toDigitsCore
    by_cases h0 : n / 10 = 0
    · simp [h0, hd]
    · have hlt2 : n / 10 < fuel := by omega
      simp only [h0, if_false]
      rw [ih (n / 10) _ (Nat.pos_of_ne_zero h0) hlt2, hd]
      simp

/-- The characters of `Nat.repr n` are the base-10 digits of `n`. -/
theorem repr_data (n : Nat) : (Nat.repr n).data =
    if n = 0 then ['0'] else (Nat.digits 10 n).reverse.map Nat.digitChar := by
  by_cases h : n = 0
  · subst h; rfl
  · simp only [h, if_false]
    show Nat.toDigitsCore 10 (n + 1) n [] = _
    rw [toDigitsCore_ten (n + 1) n [] (Nat.pos_of_ne_zero h) (Nat.lt_succ_self n)]
    simp

/-- The characters of `sprintfD c`: a minus sign for a negative number, then the base-10
digits of its absolute value, most significant first ("0" for zero). -/
theorem sprintfD_data (c : Int) : (sprintfD c).data =
    (if c < 0 then ['-'] else []) ++
      (if c = 0 then ['0'] else (Nat.digits 10 c.natAbs).reverse.map Nat.digitChar) := by
  cases c with
  | ofNat n =>
    have h1 : ¬ (Int.ofNat n < 0) := by simp
    simp only [sprintfD, h1, if_false, List.nil_append, repr_data]
    by_cases h : n = 0
    · subst h; rfl
    · have : ¬ (Int.ofNat n = 0) := by simpa using h
      simp [h, this]
  | negSucc n =>
    have h1 : Int.negSucc n < 0 := Int.negSucc_lt_zero n
    have h2 : ¬ (Int.negSucc n = 0) := by simp
    simp only [sprintfD, h1, if_true, h2, if_false, String.data_append, repr_data]
    simp [Int.natAbs]

theorem digitChar_ne_zero (d : Nat) (h0 : d ≠ 0) (h : d < 10) : Nat.digitChar d ≠ '0' := by
  interval_cases d <;> first | exact absurd rfl h0 | decide

/-- The rendering of a positive number starts with a digit other than zero. -/
theorem sprintfD_no_leading_zero (c : Int) (h : 0 < c) :
    ∃ d rest, (sprintfD c).data = d :: rest ∧ d ≠ '0' ∧ d ≠ '-' := by
  have hn : c.natAbs ≠ 0 := by omega
  have hne : Nat.digits 10 c.natAbs ≠ [] := Nat.digits_ne_nil_iff_ne_zero.mpr hn
  have hlast := Nat.getLast_digit_ne_zero 10 hn
  have hlt : (Nat.digits 10 c.natAbs).getLast hne < 10 :=
    Nat.digits_lt_base (by decide) (List.getLast_mem hne)
  have hdata := sprintfD_data c
  have h1 : ¬ c < 0 := by omega
  have h2 : ¬ c = 0 := by omega
  simp only [h1, h2, if_false, List.nil_append] at hdata
  obtain ⟨init, hinit⟩ : ∃ init, Nat.digits 10 c.natAbs
      = init ++ [(Nat.digits 10 c.natAbs).getLast hne] :=
    ⟨_, (List.dropLast_append_getLast hne).symm⟩
  rw [hinit] at hdata
  simp only [List.reverse_append, List.reverse_cons, List.reverse_nil, List.nil_append,
    List.singleton_append, List.map_cons] at hdata
  refine ⟨_, _, hdata, digitChar_ne_zero _ hlast hlt, ?_⟩
  generalize (Nat.digits 10 c.natAbs).getLast hne = d at hlt
  interval_cases d <;> decide

/-! ## The claims -/

/-- C1 (the code departs from the claim): a container whose last termination has reason
"Completed" and exit code 0 is reported all the same. On `completedPod` the handler
captures one event, with message "Completed". -/
theorem completed_termination_is_reported :
    handleEvent completedPod =
      { captured := [{ Message := "Completed", Release := "job:1", Platform := "kubernetes",
                       Level := "error",
                       Extra := [("name", .str "job-1"), ("reason", .str ""),
                                 ("nodeName", .str "node-a"), ("exitCode", .str "0"),
                                 ("container", .str "main"), ("namespace", .str "batch"),
                                 ("restartCount", .int32 0)] }],
        fault := none } := by
  decide

/-- C2: a container status without a termination record contributes no event to the output
of the handler. Its iteration of the loop never captures an event; the events captured on
a pod that has the status are an initial segment of those captured on the same pod without
it; and when the whole last-termination state is empty the two runs are equal. -/
theorem absent_record_contributes_no_event (pod : Pod) (pre post : List ContainerStatus)
    (status : ContainerStatus) (h : status.LastTerminationState.Terminated = none) :
    (∀ evt, handleStatus pod status ≠ .ok (some evt)) ∧
    (handleEvent { pod with Status := { ContainerStatuses := pre ++ status :: post } }).captured
      <+: (handleEvent { pod with Status := { ContainerStatuses := pre ++ post } }).captured ∧
    (status.LastTerminationState.nonEmpty = false →
      handleEvent { pod with Status := { ContainerStatuses := pre ++ status :: post } }
        = handleEvent { pod with Status := { ContainerStatuses := pre ++ post } }) := by
  have hs := handleStatus_no_record pod status h
  have e1 : handleEvent { pod with Status := { ContainerStatuses := pre ++ status :: post } }
      = handleLoop pod (pre ++ status :: post) := by
    unfold handleEvent; apply handleLoop_congr <;> rfl
  have e2 : handleEvent { pod with Status := { ContainerStatuses := pre ++ post } }
      = handleLoop pod (pre ++ post) := by
    unfold handleEvent; apply handleLoop_congr <;> rfl
  rw [e1, e2, handleLoop_append pod pre (status :: post), handleLoop_append pod pre post]
  refine ⟨?_, ?_, ?_⟩
  · intro evt
    rw [hs]
    split <;> simp
  · by_cases hp : (handleLoop pod pre).fault = none
    · simp only [hp, if_true]
      by_cases hn : status.LastTerminationState.nonEmpty = true
      · simp [handleLoop, hs, hn]
      · simp [handleLoop, hs, hn]
    · simp [hp]
  · intro hn
    simp [handleLoop, hs, hn]

/-- Witness of C2: the quiet first status of `threePod`, before its second status. -/
theorem absent_record_contributes_no_event_witness :
    (quietStatus "proxy" "proxy:2" 0).LastTerminationState.Terminated = none ∧
    (handleEvent { threePod with Status := { ContainerStatuses :=
        ([] ++ (quietStatus "proxy" "proxy:2" 0) ::
          [terminatedStatus "app" "app:7" 5 1 "ContainerCannotRun" "exec failed"]) } }).captured
      <+: (handleEvent { threePod with Status := { ContainerStatuses :=
        ([] ++ [terminatedStatus "app" "app:7" 5 1 "ContainerCannotRun" "exec failed"]) } }).captured :=
  ⟨by decide,
   (absent_record_contributes_no_event threePod []
      [terminatedStatus "app" "app:7" 5 1 "ContainerCannotRun" "exec failed"]
      (quietStatus "proxy" "proxy:2" 0) (by decide)).2.1⟩

/-- C3 (the code departs from the claim): on `threePod`, where only the second container
has a termination record, the handler captures exactly one event and its restart count is
the second container's (5), but its extra field "container" is "proxy", the name of the
first container of the pod specification, not "app". -/
theorem container_extra_is_first_container :
    (handleEvent threePod).fault = none ∧
    (handleEvent threePod).captured.map
        (fun evt => (evt.Extra.get "container", evt.Extra.get "restartCount"))
      = [(some (.str "proxy"), some (.int32 5))] ∧
    (threePod.Status.ContainerStatuses.map (fun st => st.Name)) = ["proxy", "app", "logger"] := by
  decide

/-- C9 (the code departs from the claim): on `waitingPod`, whose first status has a
last-termination state with `Waiting` set and `Terminated` nil, the handler panics with a
nil pointer dereference and captures nothing, not even the event of the second container. -/
theorem missing_terminated_detail_panics :
    handleEvent waitingPod = { captured := [], fault := some .nilPointerDereference } ∧
    (handleEvent { waitingPod with Status := { ContainerStatuses :=
        waitingPod.Status.ContainerStatuses.tail } }).captured.length = 1 := by
  decide

/-- C4 (the code departs from the claim): on `errorPod`, whose record composes to "Error"
with exit code 1, the captured event has extra "reason" equal to "Error", but its message
is "Pod: web-0 exited with code:  1", with two spaces before the exit code, which is not
the single-spaced "Pod: web-0 exited with code: 1". -/
theorem error_override_message_has_two_spaces :
    composeMessage { ExitCode := 1, Reason := "Error", Message := "" } = "Error" ∧
    (handleEvent errorPod).captured.map (fun evt => (evt.Message, evt.Extra.get "reason"))
      = [("Pod: web-0 exited with code:  1", some (.str "Error"))] ∧
    (handleEvent errorPod).captured.map (fun evt => evt.Message)
      ≠ ["Pod: " ++ errorPod.ObjectMeta.Name ++ " exited with code: " ++ sprintfD 1] := by
  decide

/-- C5, counterexample: on `errorErrorPod`, whose record is exit code 137, reason "Error",
message "Error", no captured event has the message "Pod: api-0 exited with code: 137" and
extra "reason" equal to "Error"; the one captured event has message "Error - Error" and an
empty "reason". -/
theorem error_error_record_not_overridden :
    (¬ ∃ evt ∈ (handleEvent errorErrorPod).captured,
        evt.Message = "Pod: " ++ errorErrorPod.ObjectMeta.Name ++ " exited with code: 137" ∧
        evt.Extra.get "reason" = some (.str "Error")) ∧
    (handleEvent errorErrorPod).captured.map (fun evt => (evt.Message, evt.Extra.get "reason"))
      = [("Error - Error", some (.str ""))] := by
  decide

/-- C5, amended: in a pod whose specification lists a container, a container status whose
termination record is exactly exit code 137, reason "Error", message "Error", and before
which every status has an empty last-termination state or a termination record, makes
`handleEvent` emit an event, placed after the events of the earlier statuses and before
those of the later ones, whose message is "Error - Error" (the message and the reason joined
by " - ", no override applying) and whose extra "reason" is empty. Any event the iteration
on such a status captures has that message and that reason. -/
theorem error_error_record_event (pod : Pod) (pre post : List ContainerStatus)
    (status : ContainerStatus)
    (hS : pod.Status.ContainerStatuses = pre ++ status :: post)
    (hT : status.LastTerminationState.Terminated
      = some { ExitCode := 137, Reason := "Error", Message := "Error" })
    (hC : pod.Spec.Containers ≠ [])
    (hX : ∀ s ∈ pre, s.LastTerminationState.nonEmpty = true →
      s.LastTerminationState.Terminated ≠ none) :
    (∃ evt,
      handleEvent pod =
        { captured := (handleLoop pod pre).captured ++ evt :: (handleLoop pod post).captured,
          fault := (handleLoop pod post).fault } ∧
      evt.Message = "Error - Error" ∧ evt.Extra.get "reason" = some (.str "")) ∧
    ∀ evt, handleStatus pod status = .ok (some evt) →
      evt.Message = "Error - Error" ∧ evt.Extra.get "reason" = some (.str "") := by
  have key : ∀ evt, handleStatus pod status = .ok (some evt) →
      evt.Message = "Error - Error" ∧ evt.Extra.get "reason" = some (.str "") := by
    intro evt hE
    have h := handleStatus_message_reason pod status _ evt hT hE
    have hm : composeMessage { ExitCode := 137, Reason := "Error", Message := "Error" }
        = "Error - Error" := by decide
    rw [hm, applyOverrides_other _ _ _ (by decide) (by decide)] at h
    exact h
  obtain ⟨evt, he⟩ := handleStatus_emits pod status _ hT hC
  have hP := handleLoop_no_fault pod pre hC hX
  have hev : handleEvent pod =
      { captured := (handleLoop pod pre).captured ++ evt :: (handleLoop pod post).captured,
        fault := (handleLoop pod post).fault } := by
    simp [handleEvent, hS, handleLoop_append, hP, handleLoop, he]
  exact ⟨⟨evt, hev, key evt he⟩, key⟩

/-- Witness of the amended C5 on `errorErrorPod`: the handler emits exactly one event, with
message "Error - Error" and an empty "reason". -/
theorem error_error_record_event_witness :
    errorErrorPod.Spec.Containers ≠ [] ∧
    (handleEvent errorErrorPod).captured.map (fun evt => evt.Message) = ["Error - Error"] ∧
    ∃ evt, handleEvent errorErrorPod = { captured := [evt], fault := none } ∧
      evt.Message = "Error - Error" ∧ evt.Extra.get "reason" = some (.str "") :=
  ⟨by decide, by decide,
   (error_error_record_event errorErrorPod [] []
      (terminatedStatus "api" "api:4" 1 137 "Error" "Error") rfl rfl (by decide)
      (fun _ h => absurd h (List.not_mem_nil _))).1⟩

/-- C6: in a pod whose specification lists a container, a container status whose
termination record composes to "OOMKilled", and before which every status has an empty
last-termination state or a termination record, makes `handleEvent` emit an event, placed
after the events of the earlier statuses and before those of the later ones, whose message
is "Pod: " followed by the pod name and " OOMKilled" and whose extra "reason" is
"OOMKilled". Any event the iteration on such a status captures has that message and that
reason, and the record with exit code 137, reason "OOMKilled" and an empty message is such
a record. -/
theorem oomkilled_override (pod : Pod) (pre post : List ContainerStatus)
    (status : ContainerStatus) (t : ContainerStateTerminated)
    (hS : pod.Status.ContainerStatuses = pre ++ status :: post)
    (hT : status.LastTerminationState.Terminated = some t)
    (hM : composeMessage t = "OOMKilled")
    (hC : pod.Spec.Containers ≠ [])
    (hX : ∀ s ∈ pre, s.LastTerminationState.nonEmpty = true →
      s.LastTerminationState.Terminated ≠ none) :
    (∃ evt,
      handleEvent pod =
        { captured := (handleLoop pod pre).captured ++ evt :: (handleLoop pod post).captured,
          fault := (handleLoop pod post).fault } ∧
      evt.Message = "Pod: " ++ pod.ObjectMeta.Name ++ " OOMKilled" ∧
      evt.Extra.get "reason" = some (.str "OOMKilled")) ∧
    (∀ evt, handleStatus pod status = .ok (some evt) →
      evt.Message = "Pod: " ++ pod.ObjectMeta.Name ++ " OOMKilled" ∧
      evt.Extra.get "reason" = some (.str "OOMKilled")) ∧
    composeMessage { ExitCode := 137, Reason := "OOMKilled", Message := "" } = "OOMKilled" := by
  have key : ∀ evt, handleStatus pod status = .ok (some evt) →
      evt.Message = "Pod: " ++ pod.ObjectMeta.Name ++ " OOMKilled" ∧
      evt.Extra.get "reason" = some (.str "OOMKilled") := by
    intro evt hE
    have h := handleStatus_message_reason pod status t evt hT hE
    rw [hM, applyOverrides_oomkilled] at h
    exact h
  obtain ⟨evt, he⟩ := handleStatus_emits pod status t hT hC
  have hP := handleLoop_no_fault pod pre hC hX
  have hev : handleEvent pod =
      { captured := (handleLoop pod pre).captured ++ evt :: (handleLoop pod post).captured,
        fault := (handleLoop pod post).fault } := by
    simp [handleEvent, hS, handleLoop_append, hP, handleLoop, he]
  exact ⟨⟨evt, hev, key evt he⟩, key, by decide⟩

/-- Witness of C6: the record with exit code 137, reason "OOMKilled" and an empty message,
in `workerPod`; the handler emits exactly one event. -/
theorem oomkilled_override_witness :
    composeMessage { ExitCode := 137, Reason := "OOMKilled", Message := "" } = "OOMKilled" ∧
    workerPod.Spec.Containers ≠ [] ∧
    (handleEvent workerPod).captured.map (fun evt => evt.Message)
      = ["Pod: worker-1 OOMKilled"] ∧
    ∃ evt, handleEvent workerPod = { captured := [evt], fault := none } ∧
      evt.Message = "Pod: " ++ workerPod.ObjectMeta.Name ++ " OOMKilled" ∧
      evt.Extra.get "reason" = some (.str "OOMKilled") :=
  ⟨by decide, by decide, by decide,
   (oomkilled_override workerPod [] []
      (terminatedStatus "main" "app:1.2" 3 137 "OOMKilled" "")
      { ExitCode := 137, Reason := "OOMKilled", Message := "" } rfl rfl (by decide)
      (by decide) (fun _ h => absurd h (List.not_mem_nil _))).1⟩

/-- C7: the composed message of the code is the one the specification words (the message
when the exit code is not zero, joined to a non-empty reason by " - ", message first). In a
pod whose specification lists a container, a status whose record composes to neither
"Error" nor "OOMKilled", and before which every status has an empty last-termination state
or a termination record, makes `handleEvent` emit an event, placed after the events of the
earlier statuses and before those of the later ones, whose message is the composed message
and whose extra "reason" is empty; for the record with exit code 1, reason
"ContainerCannotRun" and message "exec failed" that message is
"exec failed - ContainerCannotRun". Any event the iteration on such a status captures has
that message and that reason. -/
theorem message_composition (pod : Pod) (pre post : List ContainerStatus)
    (status : ContainerStatus) (t : ContainerStateTerminated)
    (hS : pod.Status.ContainerStatuses = pre ++ status :: post)
    (hT : status.LastTerminationState.Terminated = some t)
    (hC : pod.Spec.Containers ≠ [])
    (hX : ∀ s ∈ pre, s.LastTerminationState.nonEmpty = true →
      s.LastTerminationState.Terminated ≠ none) :
    composeMessage t = composedSpec t.ExitCode t.Message t.Reason ∧
    (composeMessage t ≠ "Error" → composeMessage t ≠ "OOMKilled" →
      (∃ evt,
        handleEvent pod =
          { captured := (handleLoop pod pre).captured ++ evt :: (handleLoop pod post).captured,
            fault := (handleLoop pod post).fault } ∧
        evt.Message = composeMessage t ∧ evt.Extra.get "reason" = some (.str "")) ∧
      ∀ evt, handleStatus pod status = .ok (some evt) →
        evt.Message = composeMessage t ∧ evt.Extra.get "reason" = some (.str "")) ∧
    (t = { ExitCode := 1, Reason := "ContainerCannotRun", Message := "exec failed" } →
      ∃ evt,
        handleEvent pod =
          { captured := (handleLoop pod pre).captured ++ evt :: (handleLoop pod post).captured,
            fault := (handleLoop pod post).fault } ∧
        evt.Message = "exec failed - ContainerCannotRun" ∧
        evt.Extra.get "reason" = some (.str "")) := by
  have key : composeMessage t ≠ "Error" → composeMessage t ≠ "OOMKilled" →
      ∀ evt, handleStatus pod status = .ok (some evt) →
        evt.Message = composeMessage t ∧ evt.Extra.get "reason" = some (.str "") := by
    intro h1 h2 evt hE
    have h := handleStatus_message_reason pod status t evt hT hE
    rw [applyOverrides_other _ _ _ h1 h2] at h
    exact h
  obtain ⟨evt, he⟩ := handleStatus_emits pod status t hT hC
  have hP := handleLoop_no_fault pod pre hC hX
  have hev : handleEvent pod =
      { captured := (handleLoop pod pre).captured ++ evt :: (handleLoop pod post).captured,
        fault := (handleLoop pod post).fault } := by
    simp [handleEvent, hS, handleLoop_append, hP, handleLoop, he]
  refine ⟨composeMessage_eq_composedSpec t,
    fun h1 h2 => ⟨⟨evt, hev, key h1 h2 evt he⟩, key h1 h2⟩, ?_⟩
  intro ht
  have hm : composeMessage t = "exec failed - ContainerCannotRun" := by subst ht; decide
  have h1 : composeMessage t ≠ "Error" := by rw [hm]; decide
  have h2 : composeMessage t ≠ "OOMKilled" := by rw [hm]; decide
  obtain ⟨hmsg, hr⟩ := key h1 h2 evt he
  exact ⟨evt, hev, hmsg.trans hm, hr⟩

/-- Witness of C7: the second status of `threePod`, after the quiet first status and before
the quiet third; the handler emits exactly one event, with the joined message. -/
theorem message_composition_witness :
    threePod.Spec.Containers ≠ [] ∧
    (handleEvent threePod).captured.map (fun evt => evt.Message)
      = ["exec failed - ContainerCannotRun"] ∧
    composeMessage { ExitCode := 1, Reason := "ContainerCannotRun", Message := "exec failed" }
      = composedSpec 1 "exec failed" "ContainerCannotRun" ∧
    ∃ evt, handleEvent threePod = { captured := [evt], fault := none } ∧
      evt.Message = "exec failed - ContainerCannotRun" ∧
      evt.Extra.get "reason" = some (.str "") :=
  ⟨by decide, by decide,
   (message_composition threePod [quietStatus "proxy" "proxy:2" 0]
      [quietStatus "logger" "log:1" 0]
      (terminatedStatus "app" "app:7" 5 1 "ContainerCannotRun" "exec failed")
      { ExitCode := 1, Reason := "ContainerCannotRun", Message := "exec failed" } rfl rfl
      (by decide) (by decide)).1,
   (message_composition threePod [quietStatus "proxy" "proxy:2" 0]
      [quietStatus "logger" "log:1" 0]
      (terminatedStatus "app" "app:7" 5 1 "ContainerCannotRun" "exec failed")
      { ExitCode := 1, Reason := "ContainerCannotRun", Message := "exec failed" } rfl rfl
      (by decide) (by decide)).2.2 rfl⟩

/-- C8: every event captured for a container status has release equal to the image of that
status, platform "kubernetes", level error, and extras "name", "nodeName", "namespace",
"restartCount" and "exitCode" equal to the pod name, the node name, the namespace, the
restart count of that status and the decimal string of the exit code of its record: the
base-10 digits of the code, most significant first, "0" for code 0, with no leading zero
and no sign for a positive code (and a minus sign for a negative one). On the pod "worker-1" of the end-to-end
scenario the handler captures exactly the one event of the scenario and does not panic. -/
theorem event_fields (pod : Pod) (status : ContainerStatus) (evt : Event)
    (hE : handleStatus pod status = .ok (some evt)) :
    (∃ t, status.LastTerminationState.Terminated = some t ∧
      evt.Extra.get "exitCode" = some (.str (sprintfD t.ExitCode)) ∧
      (t.ExitCode = 0 → evt.Extra.get "exitCode" = some (.str "0")) ∧
      (sprintfD t.ExitCode).data =
        (if t.ExitCode < 0 then ['-'] else []) ++
          (if t.ExitCode = 0 then ['0']
           else (Nat.digits 10 t.ExitCode.natAbs).reverse.map Nat.digitChar) ∧
      (0 < t.ExitCode →
        ∃ d rest, (sprintfD t.ExitCode).data = d :: rest ∧ d ≠ '0' ∧ d ≠ '-')) ∧
    evt.Release = status.Image ∧
    evt.Platform = "kubernetes" ∧
    evt.Level = LevelError ∧
    evt.Extra.get "name" = some (.str pod.ObjectMeta.Name) ∧
    evt.Extra.get "nodeName" = some (.str pod.Spec.NodeName) ∧
    evt.Extra.get "namespace" = some (.str pod.ObjectMeta.Namespace) ∧
    evt.Extra.get "restartCount" = some (.int32 status.RestartCount) ∧
    handleEvent workerPod = { captured := [workerEvent], fault := none } := by
  obtain ⟨t, first, rest, hT, -, rfl⟩ := handleStatus_ok_some pod status evt hE
  have hf := buildEvent_fields pod status first (sprintfD t.ExitCode)
    (applyOverrides pod.ObjectMeta.Name (sprintfD t.ExitCode) (composeMessage t)).1
    (applyOverrides pod.ObjectMeta.Name (sprintfD t.ExitCode) (composeMessage t)).2
  obtain ⟨-, h2, h3, h4, h5, -, h7, h8, -, h10, h11⟩ := hf
  refine ⟨⟨t, hT, h8, ?_, sprintfD_data t.ExitCode, sprintfD_no_leading_zero t.ExitCode⟩,
    h2, h3, h4, h5, h7, h10, h11, by decide⟩
  intro h0
  rw [h8, h0]; rfl

/-- Witness of C8: the status of `workerPod`, which captures `workerEvent`. -/
theorem event_fields_witness :
    handleStatus workerPod (terminatedStatus "main" "app:1.2" 3 137 "OOMKilled" "")
        = .ok (some workerEvent) ∧
    workerEvent.Release = "app:1.2" ∧
    workerEvent.Extra.get "restartCount" = some (.int32 3) :=
  ⟨rfl,
   (event_fields workerPod (terminatedStatus "main" "app:1.2" 3 137 "OOMKilled" "")
      workerEvent rfl).2.1,
   (event_fields workerPod (terminatedStatus "main" "app:1.2" 3 137 "OOMKilled" "")
      workerEvent rfl).2.2.2.2.2.2.2.1⟩

/-- C10: for every captured event, the extra "reason" is "", "Error" or "OOMKilled"; it is
not empty exactly when the message differs from the composed message (an override was
applied); it equals a token T among "Error" and "OOMKilled" exactly when the reason of the
record is T and the message part is empty (exit code 0 or empty message), or the reason is
empty, the exit code is not zero and the message is T. The two overrides never both apply:
the message left by the "Error" override begins with "Pod: " and is not "OOMKilled", and a
message joined with " - " triggers neither override. -/
theorem reason_extra_characterised (pod : Pod) (status : ContainerStatus)
    (t : ContainerStateTerminated) (evt : Event)
    (hT : status.LastTerminationState.Terminated = some t)
    (hE : handleStatus pod status = .ok (some evt)) :
    ∃ reason, evt.Extra.get "reason" = some (.str reason) ∧
      (reason = "" ∨ reason = "Error" ∨ reason = "OOMKilled") ∧
      (reason ≠ "" ↔ evt.Message ≠ composeMessage t) ∧
      (∀ T, T = "Error" ∨ T = "OOMKilled" →
        (reason = T ↔
          (t.Reason = T ∧ (t.ExitCode = 0 ∨ t.Message = "")) ∨
          (t.Reason = "" ∧ t.ExitCode ≠ 0 ∧ t.Message = T))) ∧
      (∀ st : String × String, st.2 = "Error" →
        (∃ tail, (overrideError pod.ObjectMeta.Name (sprintfD t.ExitCode) st).2
            = "Pod: " ++ tail) ∧
        (overrideError pod.ObjectMeta.Name (sprintfD t.ExitCode) st).2 ≠ "OOMKilled" ∧
        overrideOOMKilled pod.ObjectMeta.Name
            (overrideError pod.ObjectMeta.Name (sprintfD t.ExitCode) st)
          = overrideError pod.ObjectMeta.Name (sprintfD t.ExitCode) st) ∧
      (t.ExitCode ≠ 0 → t.Message ≠ "" → t.Reason ≠ "" →
        composeMessage t = t.Message ++ " - " ++ t.Reason ∧ reason = "" ∧
        evt.Message = composeMessage t) := by
  obtain ⟨t2, first, rest, hT2, -, hev⟩ := handleStatus_ok_some pod status evt hE
  have ht : t2 = t := by rw [hT] at hT2; exact (Option.some.inj hT2).symm
  subst ht
  have hmsg : evt.Message
      = (applyOverrides pod.ObjectMeta.Name (sprintfD t2.ExitCode) (composeMessage t2)).2 := by
    rw [hev]; exact (buildEvent_fields _ _ _ _ _ _).1
  have hrsn : evt.Extra.get "reason" = some (.str
      (applyOverrides pod.ObjectMeta.Name (sprintfD t2.ExitCode) (composeMessage t2)).1) := by
    rw [hev]; exact (buildEvent_fields _ _ _ _ _ _).2.2.2.2.2.1
  -- the first override leaves a message that begins with "Pod: "
  have hover : ∀ st : String × String, st.2 = "Error" →
      (∃ tail, (overrideError pod.ObjectMeta.Name (sprintfD t2.ExitCode) st).2
          = "Pod: " ++ tail) ∧
      (overrideError pod.ObjectMeta.Name (sprintfD t2.ExitCode) st).2 ≠ "OOMKilled" ∧
      overrideOOMKilled pod.ObjectMeta.Name
          (overrideError pod.ObjectMeta.Name (sprintfD t2.ExitCode) st)
        = overrideError pod.ObjectMeta.Name (sprintfD t2.ExitCode) st := by
    intro st hst
    have e : (overrideError pod.ObjectMeta.Name (sprintfD t2.ExitCode) st).2
        = "Pod: " ++ (pod.ObjectMeta.Name ++ (" exited with code:  "
            ++ sprintfD t2.ExitCode)) := by
      simp [overrideError, hst, String.append_assoc]
    have ne : (overrideError pod.ObjectMeta.Name (sprintfD t2.ExitCode) st).2 ≠ "OOMKilled" := by
      rw [e]; exact pod_append_ne_oomkilled _
    refine ⟨⟨_, e⟩, ne, ?_⟩
    simp [overrideOOMKilled, ne]
  -- a joined message triggers no override
  have hjoin : t2.ExitCode ≠ 0 → t2.Message ≠ "" → t2.Reason ≠ "" →
      composeMessage t2 = t2.Message ++ " - " ++ t2.Reason := by
    intro hc hm hr
    simp [composeMessage, hc, hm, hr]
  have hE1 := composeMessage_eq_token t2 "Error" (Or.inl rfl)
  have hO1 := composeMessage_eq_token t2 "OOMKilled" (Or.inr rfl)
  by_cases h1 : composeMessage t2 = "Error"
  · -- the "Error" override
    have hap : applyOverrides pod.ObjectMeta.Name (sprintfD t2.ExitCode) (composeMessage t2)
        = ("Error", "Pod: " ++ pod.ObjectMeta.Name ++ " exited with code:  "
            ++ sprintfD t2.ExitCode) := by
      rw [h1]; exact applyOverrides_error _ _
    rw [hap] at hmsg hrsn
    have hmne : evt.Message ≠ composeMessage t2 := by
      rw [hmsg, h1]
      show "Pod: " ++ pod.ObjectMeta.Name ++ " exited with code:  "
        ++ sprintfD t2.ExitCode ≠ "Error"
      rw [String.append_assoc, String.append_assoc]; exact pod_append_ne_error _
    refine ⟨"Error", hrsn, Or.inr (Or.inl rfl), ⟨fun _ => hmne, fun _ => by decide⟩,
      ?_, hover, ?_⟩
    · intro T hTok
      rcases hTok with rfl | rfl
      · rw [← hE1]; simp [h1]
      · rw [← hO1]; simp [h1]
    · intro hc hm hr
      exact absurd h1 (by rw [hjoin hc hm hr]; exact joined_ne_error _ _)
  · by_cases h2 : composeMessage t2 = "OOMKilled"
    · -- the "OOMKilled" override
      have hap : applyOverrides pod.ObjectMeta.Name (sprintfD t2.ExitCode) (composeMessage t2)
          = ("OOMKilled", "Pod: " ++ pod.ObjectMeta.Name ++ " OOMKilled") := by
        rw [h2]; exact applyOverrides_oomkilled _ _
      rw [hap] at hmsg hrsn
      have hmne : evt.Message ≠ composeMessage t2 := by
        rw [hmsg, h2]
        show "Pod: " ++ pod.ObjectMeta.Name ++ " OOMKilled" ≠ "OOMKilled"
        rw [String.append_assoc]; exact pod_append_ne_oomkilled _
      refine ⟨"OOMKilled", hrsn, Or.inr (Or.inr rfl), ⟨fun _ => hmne, fun _ => by decide⟩,
        ?_, hover, ?_⟩
      · intro T hTok
        rcases hTok with rfl | rfl
        · rw [← hE1]; simp [h2]
        · rw [← hO1]; simp [h2]
      · intro hc hm hr
        exact absurd h2 (by rw [hjoin hc hm hr]; exact joined_ne_oomkilled _ _)
    · -- no override
      have hap := applyOverrides_other pod.ObjectMeta.Name (sprintfD t2.ExitCode)
        (composeMessage t2) h1 h2
      rw [hap] at hmsg hrsn
      refine ⟨"", hrsn, Or.inl rfl, ⟨fun h => absurd rfl h, fun h => absurd hmsg h⟩,
        ?_, hover, ?_⟩
      · intro T hTok
        rcases hTok with rfl | rfl
        · rw [← hE1]; simp [h1]
        · rw [← hO1]; simp [h2]
      · intro hc hm hr
        exact ⟨hjoin hc hm hr, rfl, hmsg⟩

/-- Witness of C10: the status of `workerPod`, whose reason is "OOMKilled" with an empty
message. -/
theorem reason_extra_characterised_witness :
    handleStatus workerPod (terminatedStatus "main" "app:1.2" 3 137 "OOMKilled" "")
        = .ok (some workerEvent) ∧
    ∃ reason, workerEvent.Extra.get "reason" = some (.str reason) ∧
      (reason = "" ∨ reason = "Error" ∨ reason = "OOMKilled") :=
  ⟨rfl,
   match reason_extra_characterised workerPod
      (terminatedStatus "main" "app:1.2" 3 137 "OOMKilled" "")
      { ExitCode := 137, Reason := "OOMKilled", Message := "" } workerEvent rfl rfl with
   | ⟨reason, h1, h2, _⟩ => ⟨reason, h1, h2⟩⟩

end SentryKubernetes
